import Mathlib

/-!
# Verification of the session lifecycle and resolution subsystem

Shallow embedding of `chuk_mcp_ios/core/session_manager.py`
(`UnifiedSessionManager`) and `chuk_mcp_ios/core/utilities_manager.py`
(`UnifiedUtilitiesManager._looks_like_session_id`, `_resolve_target`,
`_get_device_udid_from_session`).

Modelling conventions:
* Timestamps are seconds since the epoch (`Nat`).  Python stores
  `datetime.now()` and serializes it with `isoformat`; `fromisoformat`
  is its exact inverse on `isoformat` output, and raises `ValueError`
  on unparsable text.  We model a persisted `created_at` field as a
  `TimeField`: `valid t` for text that `fromisoformat` parses to `t`,
  `invalid` for unparsable text.
* The Python in-memory map `self.sessions : Dict[str, SessionInfo]` is
  an insertion-ordered association list; `d[k] = v` updates in place
  when the key exists and appends otherwise, matching dict semantics.
* The session directory (one `<session_id>.json` file per session) is
  an association list from file stem to parsed content.  A file whose
  content `json.load` rejects is `PFile.corrupt`; otherwise it is a
  `PFile.record` whose optional fields model JSON key presence.  The
  list order is the directory-iteration (`Path.glob`) order, which
  Python leaves unspecified.
* `max_sessions` and `auto_cleanup_hours` are constructor arguments
  never mutated afterwards, so they are passed as parameters.
* External effects (booting devices, the best-effort simulator
  shutdown inside `terminate_session`, logging) do not touch the
  session/file state and are elided; `_find_or_prepare_device` is
  abstracted by passing the found `DeviceInfo` as a parameter, and the
  random part of the generated id is a parameter as well.
* `SessionInfo.metadata` is not modelled: no claim mentions it, and it
  is round-tripped independently of the four fields the claims track.
-/

/-- `DeviceType` from `core/base.py`: `SIMULATOR = "simulator"`,
`REAL_DEVICE = "real_device"`. -/
inductive DeviceType where
  | simulator
  | real_device
deriving DecidableEq, Repr

/-- `.value` of the Python enum member. -/
def DeviceType.value : DeviceType → String
  | .simulator => "simulator"
  | .real_device => "real_device"

/-- `DeviceType(s)` in Python: matches a string against the enum values,
raising `ValueError` (here `none`) when no member matches. -/
def DeviceType.ofString? (s : String) : Option DeviceType :=
  if s = "simulator" then some .simulator
  else if s = "real_device" then some .real_device
  else none

/-- A persisted `created_at` value: `valid t` models ISO-8601 text that
`datetime.fromisoformat` parses to time `t`; `invalid` models text it
rejects with `ValueError`. -/
inductive TimeField where
  | valid (t : Nat)
  | invalid
deriving DecidableEq, Repr

/-- The JSON object of one persisted session record; `none` fields model
absent JSON keys (`metadata` elided, see the header). -/
structure RecordData where
  session_id : Option String := none
  device_udid : Option String := none
  device_type : Option String := none
  created_at : Option TimeField := none
deriving DecidableEq, Repr

/-- Content of one file in the session directory: `corrupt` when
`json.load` raises `JSONDecodeError`, otherwise the parsed record. -/
inductive PFile where
  | corrupt
  | record (r : RecordData)
deriving DecidableEq, Repr

/-- `SessionInfo` from `core/base.py` (metadata elided). -/
structure SessionInfo where
  session_id : String
  device_udid : String
  device_type : DeviceType
  created_at : Nat
deriving DecidableEq, Repr

/-- The slice of `DeviceInfo` (`core/base.py`) that session creation
records: the device found by `_find_or_prepare_device`. -/
structure DeviceInfo where
  udid : String
  device_type : DeviceType
deriving DecidableEq, Repr

/-- First value bound to a key in an association list (Python `d[k]`
lookup / `k in d`). -/
def lookupKey {α : Type} (k : String) : List (String × α) → Option α
  | [] => none
  | (k', v) :: rest => if k' = k then some v else lookupKey k rest

/-- Python `d[k] = v`: replace in place when the key exists, else
append (dicts preserve insertion order). -/
def setKey {α : Type} (k : String) (v : α) (l : List (String × α)) : List (String × α) :=
  if (lookupKey k l).isSome then
    l.map (fun kv => if kv.1 = k then (k, v) else kv)
  else
    l ++ [(k, v)]

/-- Python `del d[k]` / `file.unlink()`: drop the entries with key `k`. -/
def eraseKey {α : Type} (k : String) (l : List (String × α)) : List (String × α) :=
  l.filter (fun kv => ¬ kv.1 = k)

/-- Mutable state of one `UnifiedSessionManager`: the in-memory session
map, the session directory contents, and the `corrupted/` backup area
(file stems moved there by `_backup_corrupted_session`). -/
structure ManagerState where
  sessions : List (String × SessionInfo) := []
  files : List (String × PFile) := []
  corrupted : List String := []
deriving DecidableEq, Repr

/-- The two `SessionError` messages the modelled operations raise:
`"Maximum sessions (...) reached"` and `"Session not found: ..."`
(the spec's `CapacityExceededError` / `SessionNotFoundError`). -/
inductive SErr where
  | maxSessionsReached
  | sessionNotFound
deriving DecidableEq, Repr

deriving instance DecidableEq for Except

/-- Age test used throughout: Python compares `created_at < now - Δ`
(equivalently `created_at + Δ < now` over exact integers). -/
def isOlderThan (createdAt delta now : Nat) : Bool :=
  createdAt + delta < now

/-- `UnifiedSessionManager.terminate_session`.  Absent from memory: an
existing file is an orphan, deleted with success; no file raises
`SessionError("Session not found")`.  Present: best-effort device
cleanup (external, elided), then the session and its file are removed. -/
def terminateSession (st : ManagerState) (sessionId : String) : Except SErr ManagerState :=
  match lookupKey sessionId st.sessions with
  | none =>
    if (lookupKey sessionId st.files).isSome then
      .ok { st with files := eraseKey sessionId st.files }
    else
      .error .sessionNotFound
  | some _ =>
    .ok { st with sessions := eraseKey sessionId st.sessions,
                  files := eraseKey sessionId st.files }

/-- A `terminate_session` call inside a `try/except` that ignores the
failure (the loop bodies of `cleanup_inactive_sessions` and
`_enforce_session_limit`). -/
def tryTerminate (st : ManagerState) (sessionId : String) : ManagerState :=
  match terminateSession st sessionId with
  | .ok st' => st'
  | .error _ => st

/-- `UnifiedSessionManager.cleanup_inactive_sessions`: snapshot the
session items, and `terminate_session` each one whose age exceeds
`max_age_hours` (failures are caught and ignored). -/
def cleanupInactiveSessions (now maxAgeHours : Nat) (st : ManagerState) : ManagerState :=
  (st.sessions.filter (fun kv => isOlderThan kv.2.created_at (maxAgeHours * 3600) now)).foldl
    (fun s kv => tryTerminate s kv.1) st

/-- `UnifiedSessionManager._generate_session_id`: `custom_timestamp_uid`
or `session_timestamp_uid`, where `uid` is the 8-character prefix of a
freshly generated UUID4 (passed in as a parameter here). -/
def generateSessionId (customName : Option String) (timestamp : Nat) (uniqueId : String) : String :=
  match customName with
  | some n => n ++ "_" ++ toString timestamp ++ "_" ++ uniqueId
  | none => "session_" ++ toString timestamp ++ "_" ++ uniqueId

/-- `_save_session`'s file content for a session: all four fields
present, `created_at` the (always re-parsable) `isoformat` text. -/
def encodeSession (s : SessionInfo) : PFile :=
  .record { session_id := some s.session_id,
            device_udid := some s.device_udid,
            device_type := some s.device_type.value,
            created_at := some (.valid s.created_at) }

/-- The capacity prologue of `create_session`: when the store already
holds `max_sessions` sessions, run one `cleanup_inactive_sessions`
pass with the aggressive `max_age_hours=1` threshold. -/
def createPrep (now maxSessions : Nat) (st : ManagerState) : ManagerState :=
  if st.sessions.length ≥ maxSessions then cleanupInactiveSessions now 1 st else st

/-- The `SessionInfo` record `create_session` constructs. -/
def newSessionInfo (now : Nat) (genId : String) (device : DeviceInfo) : SessionInfo :=
  { session_id := genId, device_udid := device.udid,
    device_type := device.device_type, created_at := now }

/-- `self.sessions[session_id] = session_info` followed by the
best-effort `_save_session` (`saveOk = false`: the save raised, was
caught, and left no file). -/
def storeSession (genId : String) (info : SessionInfo) (saveOk : Bool)
    (st : ManagerState) : ManagerState :=
  let st2 := { st with sessions := setKey genId info st.sessions }
  if saveOk then { st2 with files := setKey genId (encodeSession info) st2.files } else st2

/-- `UnifiedSessionManager.create_session`.  At capacity it first runs
`cleanup_inactive_sessions(max_age_hours=1)` and re-checks, raising
`SessionError` when still full; otherwise it stores the session under
the freshly generated id (`genId`) and best-effort persists it.
Returns the possibly-mutated state in both outcomes, since the Python
object keeps the cleanup's effects when it raises. -/
def createSession (now : Nat) (genId : String) (device : DeviceInfo) (saveOk : Bool)
    (maxSessions : Nat) (st : ManagerState) : ManagerState × Except SErr String :=
  if (createPrep now maxSessions st).sessions.length ≥ maxSessions then
    (createPrep now maxSessions st, .error .maxSessionsReached)
  else
    (storeSession genId (newSessionInfo now genId device) saveOk (createPrep now maxSessions st),
     .ok genId)

/-- A sequence of `create_session` calls against one store under a
fixed `max_sessions`; each tuple carries the call's clock reading,
generated id, found device, and save outcome. -/
def createSeq (maxSessions : Nat) (calls : List (Nat × String × DeviceInfo × Bool))
    (st : ManagerState) : ManagerState :=
  calls.foldl
    (fun s call => (createSession call.1 call.2.1 call.2.2.1 call.2.2.2 maxSessions s).1) st

/-- `UnifiedSessionManager.get_device_udid`: in-memory lookup, raising
`SessionError("Session not found")` when absent. -/
def getDeviceUdid (st : ManagerState) (sessionId : String) : Except SErr String :=
  match lookupKey sessionId st.sessions with
  | some info => .ok info.device_udid
  | none => .error .sessionNotFound

/-- File survival test of `_cleanup_old_sessions_on_startup`: the pass
reads only `created_at`; `json.load` failure, a missing `created_at`
key (`KeyError`), and unparsable text (`ValueError`) all land in the
`except` branch that unlinks the file, and parseable-but-old records
are unlinked too.  Only fresh, parseable records survive. -/
def keepAtStartupCleanup (now delta : Nat) : PFile → Bool
  | .corrupt => false
  | .record r =>
    match r.created_at with
    | some (.valid t) => ¬ isOlderThan t delta now
    | some .invalid => false
    | none => false

/-- `UnifiedSessionManager._cleanup_old_sessions_on_startup`, as the
effect on the directory contents. -/
def cleanupOldSessionsOnStartup (now delta : Nat) (files : List (String × PFile)) :
    List (String × PFile) :=
  files.filter (fun nf => keepAtStartupCleanup now delta nf.2)

/-- Per-record outcome of the `_load_sessions` loop body. -/
inductive LoadCheck where
  | accept (info : SessionInfo)
  | deleteFile
deriving DecidableEq, Repr

/-- The validation sequence of `_load_sessions` on one parsed record:
required fields present, `created_at` parses, record fresh,
`device_type` a known enum value — any failure unlinks the file. -/
def checkRecord (now delta : Nat) (r : RecordData) : LoadCheck :=
  match r.session_id, r.device_udid, r.device_type, r.created_at with
  | some sid, some udid, some dt, some tf =>
    match tf with
    | .invalid => .deleteFile
    | .valid t =>
      if isOlderThan t delta now then .deleteFile
      else
        match DeviceType.ofString? dt with
        | none => .deleteFile
        | some d =>
          .accept { session_id := sid, device_udid := udid,
                    device_type := d, created_at := t }
  | _, _, _, _ => .deleteFile

/-- The `_load_sessions` loop over the directory snapshot.  Returns the
loaded session map, the surviving files, and the stems moved to the
`corrupted/` backup area.  A `JSONDecodeError` moves the file aside;
an invalid record deletes it; an admitted record keeps its file and,
once `loaded_count` reaches `max_sessions`, the loop `break`s, leaving
every remaining file untouched and unloaded. -/
def loadLoop (now delta maxSessions : Nat) :
    List (String × PFile) → List (String × SessionInfo) → Nat →
    List (String × SessionInfo) × List (String × PFile) × List String
  | [], sess, _ => (sess, [], [])
  | (name, f) :: rest, sess, count =>
    match f with
    | .corrupt =>
      ((loadLoop now delta maxSessions rest sess count).1,
       (loadLoop now delta maxSessions rest sess count).2.1,
       name :: (loadLoop now delta maxSessions rest sess count).2.2)
    | .record r =>
      match checkRecord now delta r with
      | .deleteFile => loadLoop now delta maxSessions rest sess count
      | .accept info =>
        if count + 1 ≥ maxSessions then
          (setKey info.session_id info sess, (name, f) :: rest, [])
        else
          ((loadLoop now delta maxSessions rest (setKey info.session_id info sess) (count + 1)).1,
           (name, f) ::
             (loadLoop now delta maxSessions rest (setKey info.session_id info sess)
               (count + 1)).2.1,
           (loadLoop now delta maxSessions rest (setKey info.session_id info sess) (count + 1)).2.2)

/-- `UnifiedSessionManager._load_sessions` applied to a state. -/
def loadSessions (now delta maxSessions : Nat) (st : ManagerState) : ManagerState :=
  { st with sessions := (loadLoop now delta maxSessions st.files st.sessions 0).1,
            files := (loadLoop now delta maxSessions st.files st.sessions 0).2.1,
            corrupted := st.corrupted ++ (loadLoop now delta maxSessions st.files st.sessions 0).2.2 }

/-- The stable insertion step behind `sorted(..., key=created_at)`:
inserting (via `foldr`) an element that precedes the already-sorted
tail in the original list, it stops before the first element with an
equal or larger key, so equal-`created_at` entries keep their original
relative order, as Python's stable `sorted` does. -/
def insertByCreated (x : String × SessionInfo) :
    List (String × SessionInfo) → List (String × SessionInfo)
  | [] => [x]
  | y :: ys => if y.2.created_at < x.2.created_at then y :: insertByCreated x ys
               else x :: y :: ys

/-- Python's `sorted(self.sessions.items(), key=lambda x: x[1].created_at)`
(a stable sort). -/
def sortByCreated (l : List (String × SessionInfo)) : List (String × SessionInfo) :=
  l.foldr insertByCreated []

/-- `UnifiedSessionManager._enforce_session_limit`: when over capacity,
terminate the oldest `len - max_sessions` sessions (failures fall back
to a forced removal with the same effect on this state). -/
def enforceSessionLimit (maxSessions : Nat) (st : ManagerState) : ManagerState :=
  if st.sessions.length > maxSessions then
    ((sortByCreated st.sessions).take (st.sessions.length - maxSessions)).foldl
      (fun s kv => tryTerminate s kv.1) st
  else st

/-- `UnifiedSessionManager.__init__` on a directory: startup cleanup,
then `_load_sessions`, then `_enforce_session_limit`, all before any
call can observe the store. -/
def constructManager (now : Nat) (files : List (String × PFile))
    (maxSessions autoCleanupHours : Nat) : ManagerState :=
  enforceSessionLimit maxSessions
    (loadSessions now (autoCleanupHours * 3600) maxSessions
      { sessions := [],
        files := cleanupOldSessionsOnStartup now (autoCleanupHours * 3600) files,
        corrupted := [] })

/-- `UnifiedUtilitiesManager._looks_like_session_id`:
`'_' in target and len(target) > 10 and (target.startswith(('session_',
'automation_', 'mcp_')) or target.count('_') >= 2)`. -/
def looksLikeSessionId (target : String) : Bool :=
  target.toList.contains '_' &&
  decide (target.toList.length > 10) &&
  ("session_".toList.isPrefixOf target.toList ||
   "automation_".toList.isPrefixOf target.toList ||
   "mcp_".toList.isPrefixOf target.toList ||
   decide ((target.toList.filter (· = '_')).length ≥ 2))

/-- Strategy 3 of `_get_device_udid_from_session`: construct a fallback
`UnifiedSessionManager()` over the default on-disk session directory
(constructor defaults `max_sessions=10`, `auto_cleanup_hours=6`) and
look the session up there; when that also misses, raise
`SessionError("Session ... not found in any session manager")`.
(The fallback construction also rewrites the default directory on
disk; only the resolution result matters to the claims, so that side
effect is not propagated.) -/
def fallbackResolve (defaultDir : List (String × PFile)) (now : Nat) (sessionId : String) :
    Except SErr String :=
  match lookupKey sessionId (constructManager now defaultDir 10 6).sessions with
  | some info => .ok info.device_udid
  | none => .error .sessionNotFound

/-- `UnifiedUtilitiesManager._get_device_udid_from_session`.  Strategy 1
asks the configured manager when one is set, catching its failure.
Strategy 2 (`from ..mcp.tools import get_session_manager_for_session`)
always raises `ImportError` — `mcp/tools.py` defines no such name — so
it is the skipped branch.  Strategy 3 is `fallbackResolve`. -/
def getDeviceUdidFromSession (configuredManager : Option ManagerState)
    (defaultDir : List (String × PFile)) (now : Nat) (sessionId : String) :
    Except SErr String :=
  match configuredManager with
  | some m =>
    match getDeviceUdid m sessionId with
    | .ok udid => .ok udid
    | .error _ => fallbackResolve defaultDir now sessionId
  | none => fallbackResolve defaultDir now sessionId

/-- The string branch of `UnifiedUtilitiesManager._resolve_target`:
session-shaped input goes through session resolution, anything else is
returned unchanged as a raw device UDID. -/
def resolveTarget (configuredManager : Option ManagerState)
    (defaultDir : List (String × PFile)) (now : Nat) (target : String) :
    Except SErr String :=
  if looksLikeSessionId target then
    getDeviceUdidFromSession configuredManager defaultDir now target
  else
    .ok target

example : lookupKey "a" [("a", 1), ("b", 2)] = some 1 := by decide
example : setKey "a" 3 [("a", 1), ("b", 2)] = [("a", 3), ("b", 2)] := by decide
example : eraseKey "a" [("a", 1), ("b", 2)] = [("b", 2)] := by decide
example : looksLikeSessionId "session_1000_abc12345" = true := by decide
example : looksLikeSessionId "5EA6FAKE-1234-4ABC-8DEF-1234567890AB" = false := by decide
example : generateSessionId none 1000 "abc12345" = "session_1000_abc12345" := by decide

/-! ## Association-list and string lemmas -/

theorem lookupKey_map_update {α : Type} (k : String) (v : α) (l : List (String × α)) :
    lookupKey k (l.map (fun kv => if kv.1 = k then (k, v) else kv)) =
      (lookupKey k l).map (fun _ => v) := by
  induction l with
  | nil => simp [lookupKey]
  | cons kv rest ih =>
    obtain ⟨k', v'⟩ := kv
    simp only [List.map_cons]
    by_cases hk : k' = k
    · subst hk
      rw [if_pos (show (k', v').1 = k' from rfl)]
      simp [lookupKey, ih]
    · rw [if_neg (show ¬ (k', v').1 = k from hk)]
      simp [lookupKey, hk, ih]

theorem lookupKey_append_of_none {α : Type} (k : String) {l₁ : List (String × α)}
    (l₂ : List (String × α)) (h : lookupKey k l₁ = none) :
    lookupKey k (l₁ ++ l₂) = lookupKey k l₂ := by
  induction l₁ with
  | nil => simp
  | cons kv rest ih =>
    by_cases hk : kv.1 = k
    · simp [lookupKey, hk] at h
    · simp only [lookupKey, hk, if_neg, not_false_iff, List.cons_append] at h ⊢
      exact ih h

theorem lookupKey_setKey_self {α : Type} (k : String) (v : α) (l : List (String × α)) :
    lookupKey k (setKey k v l) = some v := by
  unfold setKey
  split
  case isTrue h =>
    obtain ⟨a, ha⟩ := Option.isSome_iff_exists.mp h
    rw [lookupKey_map_update, ha]
    rfl
  case isFalse h =>
    rw [lookupKey_append_of_none k _ (Option.not_isSome_iff_eq_none.mp h)]
    simp [lookupKey]

theorem lookupKey_eq_none_iff {α : Type} (k : String) (l : List (String × α)) :
    lookupKey k l = none ↔ ∀ p ∈ l, p.1 ≠ k := by
  induction l with
  | nil => simp [lookupKey]
  | cons kv rest ih =>
    by_cases hk : kv.1 = k
    · simp [lookupKey, hk]
    · simp [lookupKey, hk, ih]

theorem lookupKey_eraseKey_self {α : Type} (k : String) (l : List (String × α)) :
    lookupKey k (eraseKey k l) = none := by
  rw [lookupKey_eq_none_iff]
  intro p hp
  have := List.of_mem_filter hp
  simpa using this

theorem lookupKey_eraseKey_none {α : Type} (k k' : String) (l : List (String × α))
    (h : lookupKey k l = none) : lookupKey k (eraseKey k' l) = none := by
  rw [lookupKey_eq_none_iff] at h ⊢
  intro p hp
  exact h p (List.mem_of_mem_filter hp)

theorem mem_eraseKey_of_ne {α : Type} {k k' : String} {v : α} {l : List (String × α)}
    (h : (k, v) ∈ l) (hne : k ≠ k') : (k, v) ∈ eraseKey k' l := by
  refine List.mem_filter.mpr ⟨h, ?_⟩
  simpa using hne

theorem eraseKey_length_le {α : Type} (k : String) (l : List (String × α)) :
    (eraseKey k l).length ≤ l.length :=
  List.length_filter_le _ l

theorem setKey_length_le {α : Type} (k : String) (v : α) (l : List (String × α)) :
    (setKey k v l).length ≤ l.length + 1 := by
  unfold setKey
  split
  · simp
  · simp

theorem mem_setKey {α : Type} {k : String} {v : α} {p : String × α} {l : List (String × α)}
    (h : p ∈ setKey k v l) : p ∈ l ∨ p = (k, v) := by
  unfold setKey at h
  split at h
  · rcases List.mem_map.mp h with ⟨q, hq, hqe⟩
    by_cases hk : q.1 = k
    · simp only [hk, if_pos] at hqe
      exact Or.inr hqe.symm
    · simp only [hk, if_neg, not_false_iff] at hqe
      exact Or.inl (hqe ▸ hq)
  · rcases List.mem_append.mp h with h' | h'
    · exact Or.inl h'
    · exact Or.inr (by simpa using h')

theorem nodupKeys_val_eq {α : Type} {l : List (String × α)}
    (h : (l.map Prod.fst).Nodup) {k : String} {a b : α}
    (ha : (k, a) ∈ l) (hb : (k, b) ∈ l) : a = b := by
  induction l with
  | nil => cases ha
  | cons kv rest ih =>
    simp only [List.map_cons, List.nodup_cons] at h
    rcases List.mem_cons.mp ha with ha' | ha' <;> rcases List.mem_cons.mp hb with hb' | hb'
    · simpa using congrArg Prod.snd (ha'.trans hb'.symm)
    · exact absurd (List.mem_map.mpr ⟨(k, b), hb', by rw [← ha']⟩) h.1
    · exact absurd (List.mem_map.mpr ⟨(k, a), ha', by rw [← hb']⟩) h.1
    · exact ih h.2 ha' hb'

theorem lookupKey_isSome_of_mem {α : Type} {k : String} {v : α} {l : List (String × α)}
    (h : (k, v) ∈ l) : (lookupKey k l).isSome := by
  induction l with
  | nil => cases h
  | cons kv rest ih =>
    rcases List.mem_cons.mp h with h' | h'
    · simp [lookupKey, ← h']
    · by_cases hk : kv.1 = k
      · simp [lookupKey, hk]
      · simpa [lookupKey, hk] using ih h'

theorem string_toList_append (a b : String) : (a ++ b).toList = a.toList ++ b.toList := by
  simp [String.toList]

theorem toDigitsCore_length_ge (b : Nat) :
    ∀ (fuel n : Nat) (ds : List Char), 1 ≤ fuel →
      ds.length + 1 ≤ (Nat.toDigitsCore b fuel n ds).length := by
  intro fuel
  induction fuel with
  | zero => intro n ds h; omega
  | succ f ih =>
    intro n ds _
    simp only [Nat.toDigitsCore]
    split
    · simp
    · cases Nat.eq_zero_or_pos f with
      | inl h0 => subst h0; simp [Nat.toDigitsCore]
      | inr hpos =>
        have h := ih (n / b) (Nat.digitChar (n % b) :: ds) hpos
        simp at h
        omega

theorem toString_nat_toList_length (n : Nat) : 1 ≤ (toString n).toList.length := by
  show 1 ≤ (Nat.toDigits 10 n).length
  have := toDigitsCore_length_ge 10 (n + 1) n [] (by omega)
  simpa using this

/-- Every id produced by `_generate_session_id` passes the
`_looks_like_session_id` heuristic: it has at least two underscores,
its timestamp part is at least one character, and the random suffix is
the 8-character UUID prefix. -/
theorem looksLike_generateSessionId (c : Option String) (ts : Nat) (uid : String)
    (huid : uid.toList.length = 8) :
    looksLikeSessionId (generateSessionId c ts uid) = true := by
  have hts := toString_nat_toList_length ts
  cases c with
  | none =>
    have hrw : (generateSessionId none ts uid).toList =
        "session_".toList ++ ((toString ts).toList ++ ("_".toList ++ uid.toList)) := by
      simp [generateSessionId, string_toList_append]
    simp only [looksLikeSessionId, hrw, Bool.and_eq_true, Bool.or_eq_true, decide_eq_true_eq]
    refine ⟨⟨?_, ?_⟩, ?_⟩
    · rw [List.contains_iff_exists_mem_beq]
      exact ⟨'_', List.mem_append_left _ (by decide), by decide⟩
    · simp only [List.length_append, huid]
      have : "session_".toList.length = 8 := by decide
      omega
    · refine Or.inl (Or.inl (Or.inl ?_))
      rw [List.isPrefixOf_iff_prefix]
      exact List.prefix_append _ _
  | some n =>
    have hrw : (generateSessionId (some n) ts uid).toList =
        n.toList ++ ("_".toList ++ ((toString ts).toList ++ ("_".toList ++ uid.toList))) := by
      simp [generateSessionId, string_toList_append]
    simp only [looksLikeSessionId, hrw, Bool.and_eq_true, Bool.or_eq_true, decide_eq_true_eq]
    refine ⟨⟨?_, ?_⟩, ?_⟩
    · rw [List.contains_iff_exists_mem_beq]
      refine ⟨'_', List.mem_append_right _ (List.mem_append_left _ (by decide)), by decide⟩
    · simp only [List.length_append, huid]
      have : "_".toList.length = 1 := by decide
      omega
    · refine Or.inr ?_
      simp only [List.filter_append, List.length_append]
      have h1 : ("_".toList.filter (fun x => decide (x = '_'))).length = 1 := by decide
      omega

/-- The Python enum round trip: `DeviceType(member.value) = member`. -/
theorem DeviceType.ofString?_value (d : DeviceType) : DeviceType.ofString? d.value = some d := by
  cases d <;> rfl

/-! ## Lemmas about the store operations -/

theorem foldl_preserves {α β : Type} {P : β → Prop} (f : β → α → β) (l : List α) (s : β)
    (hstep : ∀ s' x, x ∈ l → P s' → P (f s' x)) (h0 : P s) : P (l.foldl f s) := by
  induction l generalizing s with
  | nil => exact h0
  | cons x xs ih =>
    exact ih (f s x) (fun s' y hy hP => hstep s' y (List.mem_cons_of_mem _ hy) hP)
      (hstep s x (List.mem_cons_self _ _) h0)

theorem terminateSession_ok {st st' : ManagerState} {k : String}
    (h : terminateSession st k = .ok st') :
    (st'.sessions = st.sessions ∨ st'.sessions = eraseKey k st.sessions) ∧
    st'.files = eraseKey k st.files ∧ st'.corrupted = st.corrupted := by
  unfold terminateSession at h
  split at h
  · split at h
    · cases h
      exact ⟨Or.inl rfl, rfl, rfl⟩
    · cases h
  · cases h
    exact ⟨Or.inr rfl, rfl, rfl⟩

theorem tryTerminate_shape (st : ManagerState) (k : String) :
    ((tryTerminate st k).sessions = st.sessions ∨
     (tryTerminate st k).sessions = eraseKey k st.sessions) ∧
    ((tryTerminate st k).files = st.files ∨
     (tryTerminate st k).files = eraseKey k st.files) ∧
    (tryTerminate st k).corrupted = st.corrupted := by
  unfold tryTerminate
  split
  case h_1 st' heq =>
    obtain ⟨hs, hf, hc⟩ := terminateSession_ok heq
    exact ⟨hs, Or.inr hf, hc⟩
  case h_2 => exact ⟨Or.inl rfl, Or.inl rfl, rfl⟩

theorem tryTerminate_sessions_length (st : ManagerState) (k : String) :
    (tryTerminate st k).sessions.length ≤ st.sessions.length := by
  rcases (tryTerminate_shape st k).1 with h | h
  · rw [h]
  · rw [h]; exact eraseKey_length_le k st.sessions

theorem cleanupInactive_length_le (now h : Nat) (st : ManagerState) :
    (cleanupInactiveSessions now h st).sessions.length ≤ st.sessions.length := by
  unfold cleanupInactiveSessions
  refine foldl_preserves (P := fun s : ManagerState => s.sessions.length ≤ st.sessions.length) _ _ _ ?_
    (Nat.le_refl _)
  intro s' x _ hP
  exact Nat.le_trans (tryTerminate_sessions_length s' x.1) hP

/-- `cleanup_inactive_sessions` never removes a session younger than its
age threshold: with distinct keys (a dict invariant), every fresh entry
survives the reap pass. -/
theorem cleanupInactive_preserves_fresh (now h : Nat) {st : ManagerState}
    (hnodup : (st.sessions.map Prod.fst).Nodup)
    {k : String} {v : SessionInfo} (hmem : (k, v) ∈ st.sessions)
    (hfresh : ¬ isOlderThan v.created_at (h * 3600) now = true) :
    (k, v) ∈ (cleanupInactiveSessions now h st).sessions := by
  unfold cleanupInactiveSessions
  refine foldl_preserves (P := fun s : ManagerState => (k, v) ∈ s.sessions) _ _ _ ?_ hmem
  intro s' x hx hP
  obtain ⟨xk, xv⟩ := x
  have hxm := List.mem_filter.mp hx
  have hk : k ≠ xk := by
    intro he
    subst he
    have hveq : xv = v := nodupKeys_val_eq hnodup hxm.1 hmem
    rw [hveq] at hxm
    exact hfresh (by simpa using hxm.2)
  rcases (tryTerminate_shape s' xk).1 with hs | hs
  · rw [hs]; exact hP
  · rw [hs]; exact mem_eraseKey_of_ne hP hk

theorem createPrep_length_le (now maxS : Nat) (st : ManagerState) :
    (createPrep now maxS st).sessions.length ≤ st.sessions.length := by
  unfold createPrep
  split
  · exact cleanupInactive_length_le now 1 st
  · exact Nat.le_refl _

theorem storeSession_sessions (g : String) (i : SessionInfo) (sok : Bool) (st : ManagerState) :
    (storeSession g i sok st).sessions = setKey g i st.sessions := by
  unfold storeSession
  split <;> rfl

theorem storeSession_files_of_not_save (g : String) (i : SessionInfo) (st : ManagerState) :
    (storeSession g i false st).files = st.files := rfl

theorem createSession_ok {now : Nat} {g i : String} {d : DeviceInfo} {sok : Bool}
    {maxS : Nat} {st st' : ManagerState}
    (h : createSession now g d sok maxS st = (st', .ok i)) :
    i = g ∧ st' = storeSession g (newSessionInfo now g d) sok (createPrep now maxS st) ∧
      (createPrep now maxS st).sessions.length < maxS := by
  unfold createSession at h
  split at h
  · cases h
  case isFalse hcap =>
    obtain ⟨h1, h2⟩ := Prod.mk.injEq .. ▸ h
    cases h2
    exact ⟨rfl, h1.symm ▸ rfl, Nat.lt_of_not_le (fun hle => hcap (by omega))⟩

theorem createSession_error {now : Nat} {g : String} {d : DeviceInfo} {sok : Bool}
    {maxS : Nat} {st : ManagerState} {e : SErr}
    (h : (createSession now g d sok maxS st).2 = .error e) :
    e = .maxSessionsReached ∧
      (createSession now g d sok maxS st).1 = createPrep now maxS st := by
  unfold createSession at h ⊢
  split at h
  · cases h
    exact ⟨rfl, by simp_all⟩
  · cases h

theorem enforceSessionLimit_of_le {maxS : Nat} {st : ManagerState}
    (h : st.sessions.length ≤ maxS) : enforceSessionLimit maxS st = st := by
  unfold enforceSessionLimit
  rw [if_neg]
  omega

/-- Restart round trip for one freshly saved record: constructing a
store over a directory holding exactly the `_save_session` output of
`s` (with `s` not yet expired and a positive session limit) loads `s`
back verbatim. -/
theorem lookup_construct_singleton (s : SessionInfo) (now maxS h : Nat)
    (hfresh : ¬ isOlderThan s.created_at (h * 3600) now = true) (hmax : 1 ≤ maxS) :
    lookupKey s.session_id
      (constructManager now [(s.session_id, encodeSession s)] maxS h).sessions = some s := by
  have hfalse : isOlderThan s.created_at (h * 3600) now = false := by
    simpa using hfresh
  have hkeep : cleanupOldSessionsOnStartup now (h * 3600) [(s.session_id, encodeSession s)]
      = [(s.session_id, encodeSession s)] := by
    simp [cleanupOldSessionsOnStartup, keepAtStartupCleanup, encodeSession, hfalse]
  have hcheck : checkRecord now (h * 3600)
      { session_id := some s.session_id, device_udid := some s.device_udid,
        device_type := some s.device_type.value,
        created_at := some (.valid s.created_at) } = .accept s := by
    simp [checkRecord, hfalse, DeviceType.ofString?_value]
  have hload : (loadLoop now (h * 3600) maxS [(s.session_id, encodeSession s)] [] 0).1
      = [(s.session_id, s)] := by
    by_cases hm : 0 + 1 ≥ maxS
    · simp [loadLoop, encodeSession, hcheck, hm, setKey, lookupKey]
    · simp [loadLoop, encodeSession, hcheck, hm, setKey, lookupKey]
  unfold constructManager loadSessions
  rw [hkeep]
  rw [enforceSessionLimit_of_le (by simp [hload]; exact hmax)]
  simp [hload, lookupKey]

/-! ## Claim theorems -/

/-- C4: every string input that fails the `_looks_like_session_id`
shape heuristic is returned unchanged by `_resolve_target` as a raw
device identity — for every configured manager and every default
session-directory content, so the result never depends on (or
consults) any Session Store. -/
theorem c4_raw_device_passthrough (cfg : Option ManagerState) (dir : List (String × PFile))
    (now : Nat) (target : String) (h : looksLikeSessionId target = false) :
    resolveTarget cfg dir now target = .ok target := by
  simp [resolveTarget, h]

/-- C4 witness: the spec's Scenario D raw 36-character UDID. -/
theorem c4_raw_device_passthrough_witness :
    looksLikeSessionId "5EA6FAKE-1234-4ABC-8DEF-1234567890AB" = false ∧
    resolveTarget none [] 0 "5EA6FAKE-1234-4ABC-8DEF-1234567890AB" =
      .ok "5EA6FAKE-1234-4ABC-8DEF-1234567890AB" :=
  ⟨by decide, c4_raw_device_passthrough none [] 0 _ (by decide)⟩

/-- C5: `terminate_session` raises `SessionError("Session not found")`
exactly when the id has neither an in-memory session nor a persisted
file; with no in-memory record but an existing file it succeeds,
removes that file and leaves the session map unchanged (orphan
cleanup); and terminating a live session twice in a row raises on the
second call. -/
theorem c5_terminate_orphan_idempotence (st : ManagerState) (sid : String) :
    (terminateSession st sid = .error .sessionNotFound ↔
      lookupKey sid st.sessions = none ∧ lookupKey sid st.files = none)
    ∧ (lookupKey sid st.sessions = none → (lookupKey sid st.files).isSome →
        ∃ st', terminateSession st sid = .ok st' ∧ lookupKey sid st'.files = none ∧
          st'.sessions = st.sessions)
    ∧ (∀ st', (lookupKey sid st.sessions).isSome → terminateSession st sid = .ok st' →
        terminateSession st' sid = .error .sessionNotFound) := by
  refine ⟨?_, ?_, ?_⟩
  · unfold terminateSession
    rcases hs : lookupKey sid st.sessions with _ | v
    · rcases hf : lookupKey sid st.files with _ | f
      · simp [hf]
      · simp [hf]
    · simp [hs]
  · intro hs hf
    unfold terminateSession
    rw [hs, if_pos hf]
    exact ⟨_, rfl, lookupKey_eraseKey_self sid st.files, rfl⟩
  · intro st' hs hterm
    unfold terminateSession at hterm
    rcases hmem : lookupKey sid st.sessions with _ | v
    · rw [hmem] at hs; cases hs
    · rw [hmem] at hterm
      cases hterm
      unfold terminateSession
      rw [lookupKey_eraseKey_self sid st.sessions]
      rw [if_neg (by rw [lookupKey_eraseKey_self sid st.files]; simp)]

/-- C5 witness: the orphan-cleanup conjunct applied at a store holding
no in-memory session but one persisted file (terminate succeeds,
removes the file, leaves the session map alone), and the
double-terminate conjunct applied at a store holding one live session
(the first terminate evaluates to the emptied store, the second call
on it errors); every hypothesis discharged by evaluation. -/
theorem c5_terminate_orphan_idempotence_witness :
    (∃ st', terminateSession
        ⟨[], [("session_1_x", encodeSession ⟨"session_1_x", "UDID-A", .simulator, 0⟩)], []⟩
        "session_1_x" = .ok st'
      ∧ lookupKey "session_1_x" st'.files = none
      ∧ st'.sessions = [])
    ∧ terminateSession ⟨[], [], []⟩ "session_1_x" = .error .sessionNotFound :=
  ⟨(c5_terminate_orphan_idempotence
      ⟨[], [("session_1_x", encodeSession ⟨"session_1_x", "UDID-A", .simulator, 0⟩)], []⟩
      "session_1_x").2.1 (by decide) (by decide),
   (c5_terminate_orphan_idempotence
      ⟨[("session_1_x", ⟨"session_1_x", "UDID-A", .simulator, 0⟩)],
       [("session_1_x", encodeSession ⟨"session_1_x", "UDID-A", .simulator, 0⟩)], []⟩
      "session_1_x").2.2 ⟨[], [], []⟩ (by decide) (by decide)⟩

/-- C8: the `_save_session` / `_load_sessions` codec pair is a round
trip: constructing a store (a restart) over a directory containing the
saved record of a not-yet-expired session `s` — with a positive
session limit — yields that session back with identical `session_id`,
`device_udid`, `device_type` and `created_at` (timestamps are modelled
to the second). -/
theorem c8_save_load_roundtrip (s : SessionInfo) (now maxS h : Nat)
    (hfresh : ¬ isOlderThan s.created_at (h * 3600) now = true) (hmax : 1 ≤ maxS) :
    lookupKey s.session_id
      (constructManager now [(s.session_id, encodeSession s)] maxS h).sessions = some s :=
  lookup_construct_singleton s now maxS h hfresh hmax

/-- C8 witness at a concrete session. -/
theorem c8_save_load_roundtrip_witness :
    lookupKey "session_1000_abc12345"
      (constructManager 1500
        [("session_1000_abc12345",
          encodeSession { session_id := "session_1000_abc12345", device_udid := "UDID-A",
                          device_type := .simulator, created_at := 1000 })] 10 6).sessions
      = some { session_id := "session_1000_abc12345", device_udid := "UDID-A",
               device_type := .simulator, created_at := 1000 } :=
  c8_save_load_roundtrip
    { session_id := "session_1000_abc12345", device_udid := "UDID-A",
      device_type := .simulator, created_at := 1000 } 1500 10 6 (by decide) (by decide)

/-- C9 counterexample: the store performs no non-membership check on the
generated id.  From a store holding a live session
`session_1000_aaaaaaaa` bound to `UDID-A`, a create call whose
generated id collides is accepted (`.ok`) and silently rebinds the id
to the new device `UDID-B`, contradicting "an id colliding with a live
session is never accepted". -/
theorem c9_counterexample :
    (createSession 1000 "session_1000_aaaaaaaa" ⟨"UDID-B", .simulator⟩ false 10
      ⟨[("session_1000_aaaaaaaa",
         ⟨"session_1000_aaaaaaaa", "UDID-A", .simulator, 1000⟩)], [], []⟩).2
      = .ok "session_1000_aaaaaaaa"
    ∧ lookupKey "session_1000_aaaaaaaa"
        (createSession 1000 "session_1000_aaaaaaaa" ⟨"UDID-B", .simulator⟩ false 10
          ⟨[("session_1000_aaaaaaaa",
             ⟨"session_1000_aaaaaaaa", "UDID-A", .simulator, 1000⟩)], [], []⟩).1.sessions
      = some ⟨"session_1000_aaaaaaaa", "UDID-B", .simulator, 1000⟩ := by
  decide

/-- C9 amended: ids are generated as
`<label>_<timestamp>_<8-char-entropy>` (and always satisfy the
session-id shape heuristic), but `create_session` performs no
membership check: below capacity it accepts any generated id
unconditionally, binding it to the new session — overwriting in place
whatever session previously held that id. -/
theorem c9_generated_id_no_membership_check (c : Option String) (ts : Nat) (uid : String)
    (now : Nat) (g : String) (d : DeviceInfo) (sok : Bool) (maxS : Nat) (st : ManagerState)
    (huid : uid.toList.length = 8) (hcap : st.sessions.length < maxS) :
    looksLikeSessionId (generateSessionId c ts uid) = true
    ∧ (createSession now g d sok maxS st).2 = .ok g
    ∧ lookupKey g (createSession now g d sok maxS st).1.sessions
        = some (newSessionInfo now g d) := by
  have hprep : createPrep now maxS st = st := by
    unfold createPrep
    rw [if_neg (by omega)]
  have hcap2 : ¬ (createPrep now maxS st).sessions.length ≥ maxS := by
    rw [hprep]; omega
  refine ⟨looksLike_generateSessionId c ts uid huid, ?_, ?_⟩
  · unfold createSession
    rw [if_neg hcap2]
  · unfold createSession
    rw [if_neg hcap2]
    show lookupKey g (storeSession g (newSessionInfo now g d) sok (createPrep now maxS st)).sessions
      = some (newSessionInfo now g d)
    rw [storeSession_sessions]
    exact lookupKey_setKey_self g _ _

/-- C9 witness: amended theorem at a concrete collision-capable state. -/
theorem c9_generated_id_no_membership_check_witness :
    looksLikeSessionId (generateSessionId none 1000 "abc12345") = true
    ∧ (createSession 1000 "session_1000_aaaaaaaa" ⟨"UDID-B", .simulator⟩ true 10
        ⟨[("session_1000_aaaaaaaa",
           ⟨"session_1000_aaaaaaaa", "UDID-A", .simulator, 1000⟩)], [], []⟩).2
      = .ok "session_1000_aaaaaaaa"
    ∧ lookupKey "session_1000_aaaaaaaa"
        (createSession 1000 "session_1000_aaaaaaaa" ⟨"UDID-B", .simulator⟩ true 10
          ⟨[("session_1000_aaaaaaaa",
             ⟨"session_1000_aaaaaaaa", "UDID-A", .simulator, 1000⟩)], [], []⟩).1.sessions
      = some (newSessionInfo 1000 "session_1000_aaaaaaaa" ⟨"UDID-B", .simulator⟩) :=
  c9_generated_id_no_membership_check none 1000 "abc12345" 1000 "session_1000_aaaaaaaa"
    ⟨"UDID-B", .simulator⟩ true 10
    ⟨[("session_1000_aaaaaaaa", ⟨"session_1000_aaaaaaaa", "UDID-A", .simulator, 1000⟩)], [], []⟩
    (by decide) (by decide)

/-- C10: `create_session` succeeds and returns the id even when
`_save_session` fails — the outcome and the in-memory session map are
identical for a failing and a succeeding save, on success the session
is present in memory, and below capacity a failing save leaves the
disk untouched. -/
theorem c10_create_survives_save_failure (now : Nat) (g : String) (d : DeviceInfo)
    (maxS : Nat) (st : ManagerState) :
    (createSession now g d false maxS st).2 = (createSession now g d true maxS st).2
    ∧ (createSession now g d false maxS st).1.sessions
        = (createSession now g d true maxS st).1.sessions
    ∧ (∀ i, (createSession now g d false maxS st).2 = .ok i →
        lookupKey i (createSession now g d false maxS st).1.sessions
          = some (newSessionInfo now i d))
    ∧ (st.sessions.length < maxS →
        (createSession now g d false maxS st).1.files = st.files) := by
  by_cases hcap : (createPrep now maxS st).sessions.length ≥ maxS
  · refine ⟨?_, ?_, ?_, ?_⟩ <;> unfold createSession
    · rw [if_pos hcap, if_pos hcap]
    · rw [if_pos hcap, if_pos hcap]
    · rw [if_pos hcap]
      intro i h
      cases h
    · rw [if_pos hcap]
      intro hlt
      have hprep : createPrep now maxS st = st := by
        unfold createPrep
        rw [if_neg (by omega)]
      rw [hprep] at hcap
      omega
  · refine ⟨?_, ?_, ?_, ?_⟩ <;> unfold createSession
    · rw [if_neg hcap, if_neg hcap]
    · rw [if_neg hcap, if_neg hcap]
      rw [storeSession_sessions, storeSession_sessions]
    · rw [if_neg hcap]
      intro i h
      have hg : g = i := by
        simpa using h
      subst hg
      show lookupKey g (storeSession g (newSessionInfo now g d) false
        (createPrep now maxS st)).sessions = some (newSessionInfo now g d)
      rw [storeSession_sessions]
      exact lookupKey_setKey_self g _ _
    · rw [if_neg hcap]
      intro hlt
      have hprep : createPrep now maxS st = st := by
        unfold createPrep
        rw [if_neg (by omega)]
      show (storeSession g (newSessionInfo now g d) false (createPrep now maxS st)).files
        = st.files
      rw [storeSession_files_of_not_save, hprep]

/-- C10 witness at a concrete store below capacity. -/
theorem c10_create_survives_save_failure_witness :
    (createSession 1000 "session_1000_abc12345" ⟨"UDID-A", .simulator⟩ false 10 ⟨[], [], []⟩).2
      = (createSession 1000 "session_1000_abc12345" ⟨"UDID-A", .simulator⟩ true 10
          ⟨[], [], []⟩).2
    ∧ (createSession 1000 "session_1000_abc12345" ⟨"UDID-A", .simulator⟩ false 10
        ⟨[], [], []⟩).1.sessions
      = (createSession 1000 "session_1000_abc12345" ⟨"UDID-A", .simulator⟩ true 10
          ⟨[], [], []⟩).1.sessions
    ∧ (∀ i, (createSession 1000 "session_1000_abc12345" ⟨"UDID-A", .simulator⟩ false 10
          ⟨[], [], []⟩).2 = .ok i →
        lookupKey i (createSession 1000 "session_1000_abc12345" ⟨"UDID-A", .simulator⟩ false 10
          ⟨[], [], []⟩).1.sessions = some (newSessionInfo 1000 i ⟨"UDID-A", .simulator⟩))
    ∧ ((⟨[], [], []⟩ : ManagerState).sessions.length < 10 →
        (createSession 1000 "session_1000_abc12345" ⟨"UDID-A", .simulator⟩ false 10
          ⟨[], [], []⟩).1.files = (⟨[], [], []⟩ : ManagerState).files) :=
  c10_create_survives_save_failure 1000 "session_1000_abc12345" ⟨"UDID-A", .simulator⟩ 10
    ⟨[], [], []⟩

/-- C1 counterexample: a create call that succeeds (returning the id,
with the best-effort `_save_session` having failed, so no record
reached the default session directory) after which resolution from a
freshly constructed capability-module instance — no configured
manager, fallback store built over the default directory — raises
`SessionError` instead of returning the bound device `UDID-A`. -/
theorem c1_counterexample :
    (createSession 1000 "session_1000_abc12345" ⟨"UDID-A", .simulator⟩ false 10
      ⟨[], [], []⟩).2 = .ok "session_1000_abc12345"
    ∧ resolveTarget none [] 1000 "session_1000_abc12345" = .error .sessionNotFound := by
  decide

/-- C1 amended: resolving the id immediately after a successful create
returns the bound device identity when resolution goes through the
manager that created the session; from a freshly constructed
capability-module instance (no configured manager) it succeeds only
through the fallback store built from the default on-disk directory —
guaranteed here for a create on an empty default-directory store whose
best-effort save succeeded (and refuted by the counterexample when the
save failed). -/
theorem c1_create_then_resolve (c : Option String) (ts : Nat) (uid : String)
    (now maxS : Nat) (d : DeviceInfo) (sok : Bool) (st st' : ManagerState) (i : String)
    (dir : List (String × PFile))
    (huid : uid.toList.length = 8)
    (h : createSession now (generateSessionId c ts uid) d sok maxS st = (st', .ok i)) :
    resolveTarget (some st') dir now i = .ok d.udid
    ∧ (st = ⟨[], [], []⟩ → sok = true →
        resolveTarget none st'.files now i = .ok d.udid) := by
  obtain ⟨hi, hst, hlt⟩ := createSession_ok h
  subst hi
  subst hst
  have hlook : looksLikeSessionId (generateSessionId c ts uid) = true :=
    looksLike_generateSessionId c ts uid huid
  constructor
  · unfold resolveTarget
    rw [hlook]
    show getDeviceUdidFromSession (some _) dir now _ = .ok d.udid
    simp [getDeviceUdidFromSession, getDeviceUdid, storeSession_sessions,
      lookupKey_setKey_self, newSessionInfo]
  · intro hempty hsok
    subst hempty
    subst hsok
    have hprep : createPrep now maxS ⟨[], [], []⟩ = ⟨[], [], []⟩ := by
      unfold createPrep
      split <;> rfl
    rw [hprep] at hlt ⊢
    have hfiles : (storeSession (generateSessionId c ts uid)
        (newSessionInfo now (generateSessionId c ts uid) d) true ⟨[], [], []⟩).files
        = [(generateSessionId c ts uid,
            encodeSession (newSessionInfo now (generateSessionId c ts uid) d))] := by
      simp [storeSession, setKey, lookupKey]
    rw [hfiles]
    unfold resolveTarget
    rw [hlook]
    show fallbackResolve _ now _ = .ok d.udid
    unfold fallbackResolve
    have hfresh : ¬ isOlderThan
        (newSessionInfo now (generateSessionId c ts uid) d).created_at (6 * 3600) now = true := by
      show ¬ isOlderThan now (6 * 3600) now = true
      simp only [isOlderThan, decide_eq_true_eq]
      omega
    have hc := lookup_construct_singleton (newSessionInfo now (generateSessionId c ts uid) d)
      now 10 6 hfresh (by omega)
    rw [show (newSessionInfo now (generateSessionId c ts uid) d).session_id
          = generateSessionId c ts uid from rfl] at hc
    rw [hc]
    rfl

/-- C1 witness: a concrete successful create on an empty store with a
successful save, resolved both through the creating manager and from a
fresh instance over the resulting directory. -/
theorem c1_create_then_resolve_witness :
    resolveTarget
      (some (createSession 1000 (generateSessionId none 1000 "abc12345")
        ⟨"UDID-A", .simulator⟩ true 10 ⟨[], [], []⟩).1) [] 1000
      (generateSessionId none 1000 "abc12345") = .ok "UDID-A"
    ∧ ((⟨[], [], []⟩ : ManagerState) = ⟨[], [], []⟩ → true = true →
        resolveTarget none
          (createSession 1000 (generateSessionId none 1000 "abc12345")
            ⟨"UDID-A", .simulator⟩ true 10 ⟨[], [], []⟩).1.files 1000
          (generateSessionId none 1000 "abc12345") = .ok "UDID-A") :=
  c1_create_then_resolve none 1000 "abc12345" 1000 10 ⟨"UDID-A", .simulator⟩ true
    ⟨[], [], []⟩ _ _ [] (by decide) (by decide)

/-- C2 counterexample: a session-shaped id with no record in the
configured (canonical) store does not make resolution fail — the
resolver silently falls back to a freshly constructed store over the
default directory and returns `UDID-A` from there, contradicting both
"fails with SessionNotFoundError" and "never consults or constructs
any alternate store". -/
theorem c2_counterexample :
    lookupKey "session_1000_abc12345"
      (⟨[], [], []⟩ : ManagerState).sessions = none
    ∧ resolveTarget (some ⟨[], [], []⟩)
        [("session_1000_abc12345",
          encodeSession ⟨"session_1000_abc12345", "UDID-A", .simulator, 1000⟩)]
        1000 "session_1000_abc12345" = .ok "UDID-A" := by
  decide

/-- C2 amended: for a session-shaped id absent from the configured
store, the resolver does not fail immediately: it attempts a
global-registry import (which always raises `ImportError`, the
imported name not existing) and then a freshly constructed fallback
store loaded from the default directory, raising `SessionError` only
when the id is absent there as well. -/
theorem c2_fallback_then_failure (m : ManagerState) (dir : List (String × PFile))
    (now : Nat) (sid : String)
    (h1 : looksLikeSessionId sid = true)
    (h2 : lookupKey sid m.sessions = none)
    (h3 : lookupKey sid (constructManager now dir 10 6).sessions = none) :
    resolveTarget (some m) dir now sid = .error .sessionNotFound := by
  unfold resolveTarget
  rw [h1]
  show getDeviceUdidFromSession (some m) dir now sid = .error .sessionNotFound
  simp [getDeviceUdidFromSession, getDeviceUdid, fallbackResolve, h2, h3]

/-- C2 witness: empty configured store, empty default directory. -/
theorem c2_fallback_then_failure_witness :
    resolveTarget (some ⟨[], [], []⟩) [] 1000 "session_1000_abc12345"
      = .error .sessionNotFound :=
  c2_fallback_then_failure ⟨[], [], []⟩ [] 1000 "session_1000_abc12345"
    (by decide) (by decide) (by decide)

/-- One `create_session` step never pushes a within-capacity store over
its limit: the reap can only shrink the map, the capacity re-check
rejects at `max_sessions`, and a successful insert happens strictly
below the limit. -/
theorem createSession_length_le {now : Nat} {g : String} {d : DeviceInfo} {sok : Bool}
    {maxS : Nat} {st : ManagerState} (h : st.sessions.length ≤ maxS) :
    (createSession now g d sok maxS st).1.sessions.length ≤ maxS := by
  have hprep : (createPrep now maxS st).sessions.length ≤ st.sessions.length :=
    createPrep_length_le now maxS st
  unfold createSession
  by_cases hcap : (createPrep now maxS st).sessions.length ≥ maxS
  · rw [if_pos hcap]
    exact Nat.le_trans hprep h
  · rw [if_neg hcap]
    show (storeSession g (newSessionInfo now g d) sok (createPrep now maxS st)).sessions.length
      ≤ maxS
    rw [storeSession_sessions]
    have := setKey_length_le g (newSessionInfo now g d) (createPrep now maxS st).sessions
    omega

/-- C3: over every sequence of create calls from a within-capacity
store, the session count never exceeds `max_sessions`; and when a
single create fails, the error is the capacity error, raised only
after the one aggressive reap pass (threshold 1 hour = 3600 s), which
never evicts a session younger than that threshold (keys are distinct,
a dict invariant). -/
theorem c3_capacity_invariant (maxS : Nat) (calls : List (Nat × String × DeviceInfo × Bool))
    (st : ManagerState) (now : Nat) (g : String) (d : DeviceInfo) (sok : Bool)
    (h1 : st.sessions.length ≤ maxS) (h2 : (st.sessions.map Prod.fst).Nodup) :
    (createSeq maxS calls st).sessions.length ≤ maxS
    ∧ (∀ e, (createSession now g d sok maxS st).2 = .error e →
        e = .maxSessionsReached
        ∧ ∀ k v, (k, v) ∈ st.sessions → ¬ isOlderThan v.created_at 3600 now = true →
            (k, v) ∈ (createSession now g d sok maxS st).1.sessions) := by
  constructor
  · unfold createSeq
    refine foldl_preserves (P := fun s : ManagerState => s.sessions.length ≤ maxS) _ _ _ ?_ h1
    intro s' x _ hP
    exact createSession_length_le hP
  · intro e he
    obtain ⟨he1, he2⟩ := createSession_error he
    refine ⟨he1, ?_⟩
    intro k v hmem hfresh
    rw [he2]
    unfold createPrep
    split
    · exact cleanupInactive_preserves_fresh now 1 h2 hmem (by simpa using hfresh)
    · exact hmem

/-- C3 witness: a full store of one fresh session with limit 1; the
next create fails with the capacity error and evicts nothing. -/
theorem c3_capacity_invariant_witness :
    (createSeq 1 [(1000, "session_1000_bbbbbbbb", ⟨"UDID-B", .simulator⟩, true)]
      ⟨[("session_1000_aaaaaaaa",
         ⟨"session_1000_aaaaaaaa", "UDID-A", .simulator, 900⟩)], [], []⟩).sessions.length ≤ 1
    ∧ (∀ e, (createSession 1000 "session_1000_bbbbbbbb" ⟨"UDID-B", .simulator⟩ true 1
        ⟨[("session_1000_aaaaaaaa",
           ⟨"session_1000_aaaaaaaa", "UDID-A", .simulator, 900⟩)], [], []⟩).2 = .error e →
        e = .maxSessionsReached
        ∧ ∀ k v, (k, v) ∈ [("session_1000_aaaaaaaa",
            (⟨"session_1000_aaaaaaaa", "UDID-A", .simulator, 900⟩ : SessionInfo))] →
          ¬ isOlderThan v.created_at 3600 1000 = true →
          (k, v) ∈ (createSession 1000 "session_1000_bbbbbbbb" ⟨"UDID-B", .simulator⟩ true 1
            ⟨[("session_1000_aaaaaaaa",
               ⟨"session_1000_aaaaaaaa", "UDID-A", .simulator, 900⟩)], [], []⟩).1.sessions) :=
  c3_capacity_invariant 1 [(1000, "session_1000_bbbbbbbb", ⟨"UDID-B", .simulator⟩, true)]
    ⟨[("session_1000_aaaaaaaa", ⟨"session_1000_aaaaaaaa", "UDID-A", .simulator, 900⟩)], [], []⟩
    1000 "session_1000_bbbbbbbb" ⟨"UDID-B", .simulator⟩ true (by decide) (by decide)

/-- A record admitted by the `_load_sessions` validation is fresh: the
admitting branch sits under the age check. -/
theorem checkRecord_accept_fresh {now delta : Nat} {r : RecordData} {info : SessionInfo}
    (h : checkRecord now delta r = .accept info) :
    ¬ isOlderThan info.created_at delta now = true := by
  obtain ⟨sid?, udid?, dt?, ca?⟩ := r
  cases sid? <;> cases udid? <;> cases dt? <;> cases ca? <;> simp [checkRecord] at h
  case some.some.some.some sid udid dt tf =>
    cases tf with
    | invalid => simp at h
    | valid t =>
      by_cases hold : isOlderThan t delta now = true
      · simp [hold] at h
      · rcases hd : DeviceType.ofString? dt with _ | d
        · simp [hold, hd] at h
        · simp [hold, hd] at h
          rw [← h]
          exact hold

/-- Length bound for the `_load_sessions` loop: at most
`max_sessions - count` further admissions, plus the one admission that
can land exactly on the `break` when starting at or over the limit. -/
theorem loadLoop_length_le (now delta maxS : Nat) :
    ∀ (files : List (String × PFile)) (sess : List (String × SessionInfo)) (count : Nat),
      (loadLoop now delta maxS files sess count).1.length
        ≤ sess.length + (maxS - count) + (if maxS ≤ count then 1 else 0) := by
  intro files
  induction files with
  | nil =>
    intro sess count
    simp only [loadLoop]
    split <;> omega
  | cons nf rest ih =>
    intro sess count
    obtain ⟨name, f⟩ := nf
    cases f with
    | corrupt =>
      simpa [loadLoop] using ih sess count
    | record r =>
      cases hc : checkRecord now delta r with
      | deleteFile =>
        simpa [loadLoop, hc] using ih sess count
      | accept info =>
        simp only [loadLoop, hc]
        by_cases hm : count + 1 ≥ maxS
        · rw [if_pos hm]
          show (setKey info.session_id info sess).length
            ≤ sess.length + (maxS - count) + (if maxS ≤ count then 1 else 0)
          have hs := setKey_length_le info.session_id info sess
          by_cases hq : maxS ≤ count
          · rw [if_pos hq]
            omega
          · rw [if_neg hq]
            omega
        · rw [if_neg hm]
          show (loadLoop now delta maxS rest (setKey info.session_id info sess)
              (count + 1)).1.length
            ≤ sess.length + (maxS - count) + (if maxS ≤ count then 1 else 0)
          have h2 := ih (setKey info.session_id info sess) (count + 1)
          have hs := setKey_length_le info.session_id info sess
          rw [if_neg (by omega : ¬ maxS ≤ count + 1)] at h2
          rw [if_neg (by omega : ¬ maxS ≤ count)]
          omega

/-- Every session present after the `_load_sessions` loop is fresh,
provided the sessions already loaded are. -/
theorem loadLoop_mem_fresh (now delta maxS : Nat) :
    ∀ (files : List (String × PFile)) (sess : List (String × SessionInfo)) (count : Nat),
      (∀ kv ∈ sess, ¬ isOlderThan (kv : String × SessionInfo).2.created_at delta now = true) →
      ∀ kv ∈ (loadLoop now delta maxS files sess count).1,
        ¬ isOlderThan kv.2.created_at delta now = true := by
  intro files
  induction files with
  | nil =>
    intro sess count hinit kv hkv
    exact hinit kv (by simpa [loadLoop] using hkv)
  | cons nf rest ih =>
    intro sess count hinit kv hkv
    obtain ⟨name, f⟩ := nf
    cases f with
    | corrupt =>
      exact ih sess count hinit kv (by simpa [loadLoop] using hkv)
    | record r =>
      cases hc : checkRecord now delta r with
      | deleteFile =>
        exact ih sess count hinit kv (by simpa [loadLoop, hc] using hkv)
      | accept info =>
        have hfr := checkRecord_accept_fresh hc
        have hset : ∀ kv ∈ setKey info.session_id info sess,
            ¬ isOlderThan (kv : String × SessionInfo).2.created_at delta now = true := by
          intro kv' hkv'
          rcases mem_setKey hkv' with h' | h'
          · exact hinit kv' h'
          · rw [h']
            exact hfr
        simp only [loadLoop, hc] at hkv
        by_cases hm : count + 1 ≥ maxS
        · rw [if_pos hm] at hkv
          exact hset kv hkv
        · rw [if_neg hm] at hkv
          exact ih (setKey info.session_id info sess) (count + 1) hset kv hkv

/-- When no file in the snapshot is corrupt (the startup cleanup has
already deleted those), the load loop moves nothing to the backup
area. -/
theorem loadLoop_corrupted_nil (now delta maxS : Nat) :
    ∀ (files : List (String × PFile)) (sess : List (String × SessionInfo)) (count : Nat),
      (∀ nf ∈ files, (nf : String × PFile).2 ≠ PFile.corrupt) →
      (loadLoop now delta maxS files sess count).2.2 = [] := by
  intro files
  induction files with
  | nil =>
    intro sess count _
    simp [loadLoop]
  | cons nf rest ih =>
    intro sess count hnc
    obtain ⟨name, f⟩ := nf
    cases f with
    | corrupt =>
      exact absurd rfl (hnc (name, .corrupt) (List.mem_cons_self _ _))
    | record r =>
      have hrest : ∀ nf ∈ rest, (nf : String × PFile).2 ≠ PFile.corrupt :=
        fun nf h => hnc nf (List.mem_cons_of_mem _ h)
      cases hc : checkRecord now delta r with
      | deleteFile =>
        simpa [loadLoop, hc] using ih sess count hrest
      | accept info =>
        simp only [loadLoop, hc]
        by_cases hm : count + 1 ≥ maxS
        · rw [if_pos hm]
        · rw [if_neg hm]
          exact ih (setKey info.session_id info sess) (count + 1) hrest

/-- Files surviving the load loop are a subset of the snapshot: the
loop keeps or deletes files and never creates one. -/
theorem loadLoop_files_subset (now delta maxS : Nat) :
    ∀ (files : List (String × PFile)) (sess : List (String × SessionInfo)) (count : Nat)
      (nf : String × PFile),
      nf ∈ (loadLoop now delta maxS files sess count).2.1 → nf ∈ files := by
  intro files
  induction files with
  | nil =>
    intro sess count nf h
    simp [loadLoop] at h
  | cons hd rest ih =>
    intro sess count nf h
    obtain ⟨name, f⟩ := hd
    cases f with
    | corrupt =>
      exact List.mem_cons_of_mem _ (ih sess count nf (by simpa [loadLoop] using h))
    | record r =>
      cases hc : checkRecord now delta r with
      | deleteFile =>
        exact List.mem_cons_of_mem _ (ih sess count nf (by simpa [loadLoop, hc] using h))
      | accept info =>
        simp only [loadLoop, hc] at h
        by_cases hm : count + 1 ≥ maxS
        · rw [if_pos hm] at h
          exact h
        · rw [if_neg hm] at h
          rcases List.mem_cons.mp h with h' | h'
          · exact h' ▸ List.mem_cons_self _ _
          · exact List.mem_cons_of_mem _
              (ih (setKey info.session_id info sess) (count + 1) nf h')

theorem enforce_corrupted (maxS : Nat) (st : ManagerState) :
    (enforceSessionLimit maxS st).corrupted = st.corrupted := by
  unfold enforceSessionLimit
  split
  · refine foldl_preserves (P := fun s : ManagerState => s.corrupted = st.corrupted) _ _ _ ?_ rfl
    intro s' x _ hP
    rw [(tryTerminate_shape s' x.1).2.2, hP]
  · rfl

theorem enforce_files_none (maxS : Nat) (st : ManagerState) (name : String)
    (h : lookupKey name st.files = none) :
    lookupKey name (enforceSessionLimit maxS st).files = none := by
  unfold enforceSessionLimit
  split
  · refine foldl_preserves (P := fun s : ManagerState => lookupKey name s.files = none) _ _ _ ?_ h
    intro s' x _ hP
    rcases (tryTerminate_shape s' x.1).2.1 with hf | hf
    · rw [hf]; exact hP
    · rw [hf]; exact lookupKey_eraseKey_none name x.1 s'.files hP
  · exact h

/-- With at most `max_sessions - count` files left in the snapshot, the
load loop's `break` can only trigger on its very last file, so the loop
reaches every file: every structurally invalid record (validation
result `deleteFile`) has its entry removed from the surviving files. -/
theorem loadLoop_deletes_invalid (now delta maxS : Nat) :
    ∀ (files : List (String × PFile)) (sess : List (String × SessionInfo)) (count : Nat),
      (files.map Prod.fst).Nodup →
      files.length + count ≤ maxS →
      ∀ name r, (name, PFile.record r) ∈ files →
        checkRecord now delta r = .deleteFile →
        (name, PFile.record r) ∉ (loadLoop now delta maxS files sess count).2.1 := by
  intro files
  induction files with
  | nil =>
    intro sess count _ _ name r hmem
    cases hmem
  | cons hd rest ih =>
    intro sess count hnod hlen name r hmem hdel hout
    obtain ⟨hn, hf⟩ := hd
    simp only [List.map_cons, List.nodup_cons] at hnod
    have hlen' : rest.length + count ≤ maxS := by
      simp only [List.length_cons] at hlen
      omega
    cases hf with
    | corrupt =>
      rcases List.mem_cons.mp hmem with he | hmem'
      · simp [Prod.mk.injEq] at he
      · exact ih sess count hnod.2 hlen' name r hmem' hdel (by simpa [loadLoop] using hout)
    | record r' =>
      cases hc : checkRecord now delta r' with
      | deleteFile =>
        have hout' : (name, PFile.record r) ∈ (loadLoop now delta maxS rest sess count).2.1 := by
          simpa [loadLoop, hc] using hout
        rcases List.mem_cons.mp hmem with he | hmem'
        · have hr : (name, PFile.record r) ∈ rest :=
            loadLoop_files_subset now delta maxS rest sess count _ hout'
          exact hnod.1 (List.mem_map.mpr ⟨(name, PFile.record r), hr, congrArg Prod.fst he⟩)
        · exact ih sess count hnod.2 hlen' name r hmem' hdel hout'
      | accept info =>
        by_cases hm : count + 1 ≥ maxS
        · have hrest : rest = [] := by
            rw [← List.length_eq_zero]
            simp only [List.length_cons] at hlen
            omega
          subst hrest
          have hout' : (name, PFile.record r) ∈ [(hn, PFile.record r')] := by
            simpa [loadLoop, hc, hm] using hout
          have hr : r = r' := by
            simpa using congrArg Prod.snd (List.mem_singleton.mp hout')
          rw [hr] at hdel
          cases hdel.symm.trans hc
        · rcases List.mem_cons.mp hmem with he | hmem'
          · have hr : r = r' := by
              simpa using congrArg Prod.snd he
            rw [hr] at hdel
            cases hdel.symm.trans hc
          · have hout' : (name, PFile.record r) ∈
                (hn, PFile.record r') ::
                  (loadLoop now delta maxS rest (setKey info.session_id info sess)
                    (count + 1)).2.1 := by
              simpa [loadLoop, hc, hm] using hout
            rcases List.mem_cons.mp hout' with he2 | hout2
            · exact hnod.1
                (List.mem_map.mpr ⟨(name, PFile.record r), hmem', congrArg Prod.fst he2⟩)
            · have hlen2 : rest.length + (count + 1) ≤ maxS := by
                simp only [List.length_cons] at hlen
                omega
              exact ih (setKey info.session_id info sess) (count + 1) hnod.2 hlen2
                name r hmem' hdel hout2

/-- Any file the startup cleanup pass rejects — corrupt content, or a
record with a missing, unparsable, or expired `created_at` — is absent
from the constructed store's directory (file names distinct, a
directory invariant). -/
theorem construct_files_none_of_not_keep (now : Nat) (files : List (String × PFile))
    (maxS h : Nat) (hnod : (files.map Prod.fst).Nodup) (name : String) (f : PFile)
    (hmem : (name, f) ∈ files)
    (hkeep : keepAtStartupCleanup now (h * 3600) f = false) :
    lookupKey name (constructManager now files maxS h).files = none := by
  have hclean : lookupKey name (cleanupOldSessionsOnStartup now (h * 3600) files) = none := by
    rw [lookupKey_eq_none_iff]
    intro p hp hpe
    have hpf := List.mem_filter.mp hp
    have hp2 : (name, p.2) ∈ files := by
      rw [← hpe]
      exact hpf.1
    have hval : p.2 = f := nodupKeys_val_eq hnod hp2 hmem
    have h3 := hpf.2
    rw [hval, hkeep] at h3
    cases h3
  have hload : lookupKey name (loadLoop now (h * 3600) maxS
      (cleanupOldSessionsOnStartup now (h * 3600) files) [] 0).2.1 = none := by
    rw [lookupKey_eq_none_iff]
    intro p hp
    exact (lookupKey_eq_none_iff name _).mp hclean p
      (loadLoop_files_subset now (h * 3600) maxS _ [] 0 p hp)
  unfold constructManager
  apply enforce_files_none
  simpa [loadSessions] using hload

/-- A structurally invalid record that survives the startup pass
(fresh, parseable `created_at` but failing the load-time validation) is
deleted by the load loop whenever the loop reaches it — guaranteed when
the directory holds at most `max_sessions` files. -/
theorem construct_deletes_invalid_record (now : Nat) (files : List (String × PFile))
    (maxS h : Nat) (hnod : (files.map Prod.fst).Nodup) (hlen : files.length ≤ maxS)
    (name : String) (r : RecordData) (hmem : (name, PFile.record r) ∈ files)
    (hdel : checkRecord now (h * 3600) r = .deleteFile) :
    lookupKey name (constructManager now files maxS h).files = none := by
  by_cases hkeep : keepAtStartupCleanup now (h * 3600) (PFile.record r) = false
  · exact construct_files_none_of_not_keep now files maxS h hnod name _ hmem hkeep
  · have hkeep2 : keepAtStartupCleanup now (h * 3600) (PFile.record r) = true := by
      simpa using hkeep
    have hmemc : (name, PFile.record r) ∈ cleanupOldSessionsOnStartup now (h * 3600) files :=
      List.mem_filter.mpr ⟨hmem, hkeep2⟩
    have hnodc : ((cleanupOldSessionsOnStartup now (h * 3600) files).map Prod.fst).Nodup :=
      List.Nodup.sublist (List.Sublist.map _ (List.filter_sublist _)) hnod
    have hlenc : (cleanupOldSessionsOnStartup now (h * 3600) files).length + 0 ≤ maxS := by
      have := List.length_filter_le
        (fun nf => keepAtStartupCleanup now (h * 3600) (nf : String × PFile).2) files
      simp only [cleanupOldSessionsOnStartup]
      omega
    have hnotin := loadLoop_deletes_invalid now (h * 3600) maxS
      (cleanupOldSessionsOnStartup now (h * 3600) files) [] 0 hnodc hlenc name r hmemc hdel
    have hload : lookupKey name (loadLoop now (h * 3600) maxS
        (cleanupOldSessionsOnStartup now (h * 3600) files) [] 0).2.1 = none := by
      rw [lookupKey_eq_none_iff]
      intro p hp hpe
      have hpc : p ∈ cleanupOldSessionsOnStartup now (h * 3600) files :=
        loadLoop_files_subset now (h * 3600) maxS _ [] 0 p hp
      have hp2 : (name, p.2) ∈ cleanupOldSessionsOnStartup now (h * 3600) files := by
        rw [← hpe]
        exact hpc
      have hval : p.2 = PFile.record r := nodupKeys_val_eq hnodc hp2 hmemc
      apply hnotin
      rw [← hpe, ← hval]
      exact hp
    unfold constructManager
    apply enforce_files_none
    simpa [loadSessions] using hload

/-- C6 counterexample: a directory whose iteration order lists a newer
record before an older one, loaded with `max_sessions = 1` (both
records fresh).  The loop admits the newer record — not the oldest —
and on hitting the limit it `break`s, leaving the older record's
backing file on disk instead of deleting it. -/
theorem c6_counterexample :
    lookupKey "session_1000_aaaaaaaa"
      (constructManager 2000
        [("session_2000_bbbbbbbb",
          encodeSession ⟨"session_2000_bbbbbbbb", "UDID-NEW", .simulator, 2000⟩),
         ("session_1000_aaaaaaaa",
          encodeSession ⟨"session_1000_aaaaaaaa", "UDID-OLD", .simulator, 1000⟩)]
        1 6).sessions = none
    ∧ lookupKey "session_2000_bbbbbbbb"
        (constructManager 2000
          [("session_2000_bbbbbbbb",
            encodeSession ⟨"session_2000_bbbbbbbb", "UDID-NEW", .simulator, 2000⟩),
           ("session_1000_aaaaaaaa",
            encodeSession ⟨"session_1000_aaaaaaaa", "UDID-OLD", .simulator, 1000⟩)]
          1 6).sessions = some ⟨"session_2000_bbbbbbbb", "UDID-NEW", .simulator, 2000⟩
    ∧ lookupKey "session_1000_aaaaaaaa"
        (constructManager 2000
          [("session_2000_bbbbbbbb",
            encodeSession ⟨"session_2000_bbbbbbbb", "UDID-NEW", .simulator, 2000⟩),
           ("session_1000_aaaaaaaa",
            encodeSession ⟨"session_1000_aaaaaaaa", "UDID-OLD", .simulator, 1000⟩)]
          1 6).files
      = some (encodeSession ⟨"session_1000_aaaaaaaa", "UDID-OLD", .simulator, 1000⟩) := by
  decide

/-- C6 amended: construction discards and deletes every record whose
content is corrupt or whose `created_at` is missing, unparsable, or
expired (the startup pass), and deletes every remaining structurally
invalid record the load loop reaches — guaranteed when the directory
holds at most `max_sessions` files; loading admits records in
directory-iteration order (not oldest-first), stops once
`max_sessions` have been accepted and merely skips the remaining files
without deleting them; the constructed store still never starts over
capacity, and every loaded session is fresh. -/
theorem c6_construct_within_capacity (now : Nat) (files : List (String × PFile)) (maxS h : Nat)
    (hmax : 1 ≤ maxS) (hnod : (files.map Prod.fst).Nodup) :
    (constructManager now files maxS h).sessions.length ≤ maxS
    ∧ (∀ k v, (k, v) ∈ (constructManager now files maxS h).sessions →
        ¬ isOlderThan v.created_at (h * 3600) now = true)
    ∧ (∀ name f, (name, f) ∈ files → keepAtStartupCleanup now (h * 3600) f = false →
        lookupKey name (constructManager now files maxS h).files = none)
    ∧ (files.length ≤ maxS → ∀ name r, (name, PFile.record r) ∈ files →
        checkRecord now (h * 3600) r = .deleteFile →
        lookupKey name (constructManager now files maxS h).files = none) := by
  have hb := loadLoop_length_le now (h * 3600) maxS
    (cleanupOldSessionsOnStartup now (h * 3600) files) [] 0
  rw [if_neg (by omega : ¬ maxS ≤ 0)] at hb
  have hlen : (loadLoop now (h * 3600) maxS
      (cleanupOldSessionsOnStartup now (h * 3600) files) [] 0).1.length ≤ maxS := by
    simpa using hb
  refine ⟨?_, ?_, ?_, ?_⟩
  · unfold constructManager
    rw [enforceSessionLimit_of_le (by simpa [loadSessions] using hlen)]
    simpa [loadSessions] using hlen
  · intro k v hmem
    unfold constructManager at hmem
    rw [enforceSessionLimit_of_le (by simpa [loadSessions] using hlen)] at hmem
    simp only [loadSessions] at hmem
    exact loadLoop_mem_fresh now (h * 3600) maxS _ [] 0 (by intro kv hkv; cases hkv) (k, v) hmem
  · intro name f hmem hkeep
    exact construct_files_none_of_not_keep now files maxS h hnod name f hmem hkeep
  · intro hlen2 name r hmem hdel
    exact construct_deletes_invalid_record now files maxS h hnod hlen2 name r hmem hdel

/-- C6 witness: a three-file directory — an expired record, a record
with an unknown `device_type`, and a good record — with limit 10.  The
capacity bound, the freshness of the loaded good session, the deletion
of the expired record's file by the startup pass, and the deletion of
the structurally invalid record's file by the load loop are each
obtained from the theorem with hypotheses discharged by evaluation. -/
theorem c6_construct_within_capacity_witness :
    (constructManager 30000
      [("session_0_expired0",
        PFile.record ⟨some "session_0_expired0", some "UDID-X",
                      some "simulator", some (.valid 0)⟩),
       ("session_25000_badtype",
        PFile.record ⟨some "session_25000_badtype", some "UDID-Y",
                      some "weird", some (.valid 25000)⟩),
       ("session_29000_good0",
        encodeSession ⟨"session_29000_good0", "UDID-G", .simulator, 29000⟩)]
      10 6).sessions.length ≤ 10
    ∧ ¬ isOlderThan
        (⟨"session_29000_good0", "UDID-G", .simulator, 29000⟩ : SessionInfo).created_at
        (6 * 3600) 30000 = true
    ∧ lookupKey "session_0_expired0"
        (constructManager 30000
          [("session_0_expired0",
            PFile.record ⟨some "session_0_expired0", some "UDID-X",
                          some "simulator", some (.valid 0)⟩),
           ("session_25000_badtype",
            PFile.record ⟨some "session_25000_badtype", some "UDID-Y",
                          some "weird", some (.valid 25000)⟩),
           ("session_29000_good0",
            encodeSession ⟨"session_29000_good0", "UDID-G", .simulator, 29000⟩)]
          10 6).files = none
    ∧ lookupKey "session_25000_badtype"
        (constructManager 30000
          [("session_0_expired0",
            PFile.record ⟨some "session_0_expired0", some "UDID-X",
                          some "simulator", some (.valid 0)⟩),
           ("session_25000_badtype",
            PFile.record ⟨some "session_25000_badtype", some "UDID-Y",
                          some "weird", some (.valid 25000)⟩),
           ("session_29000_good0",
            encodeSession ⟨"session_29000_good0", "UDID-G", .simulator, 29000⟩)]
          10 6).files = none :=
  ⟨(c6_construct_within_capacity 30000
      [("session_0_expired0",
        PFile.record ⟨some "session_0_expired0", some "UDID-X",
                      some "simulator", some (.valid 0)⟩),
       ("session_25000_badtype",
        PFile.record ⟨some "session_25000_badtype", some "UDID-Y",
                      some "weird", some (.valid 25000)⟩),
       ("session_29000_good0",
        encodeSession ⟨"session_29000_good0", "UDID-G", .simulator, 29000⟩)]
      10 6 (by decide) (by decide)).1,
   (c6_construct_within_capacity 30000
      [("session_0_expired0",
        PFile.record ⟨some "session_0_expired0", some "UDID-X",
                      some "simulator", some (.valid 0)⟩),
       ("session_25000_badtype",
        PFile.record ⟨some "session_25000_badtype", some "UDID-Y",
                      some "weird", some (.valid 25000)⟩),
       ("session_29000_good0",
        encodeSession ⟨"session_29000_good0", "UDID-G", .simulator, 29000⟩)]
      10 6 (by decide) (by decide)).2.1 "session_29000_good0"
      ⟨"session_29000_good0", "UDID-G", .simulator, 29000⟩ (by decide),
   (c6_construct_within_capacity 30000
      [("session_0_expired0",
        PFile.record ⟨some "session_0_expired0", some "UDID-X",
                      some "simulator", some (.valid 0)⟩),
       ("session_25000_badtype",
        PFile.record ⟨some "session_25000_badtype", some "UDID-Y",
                      some "weird", some (.valid 25000)⟩),
       ("session_29000_good0",
        encodeSession ⟨"session_29000_good0", "UDID-G", .simulator, 29000⟩)]
      10 6 (by decide) (by decide)).2.2.1 "session_0_expired0"
      (PFile.record ⟨some "session_0_expired0", some "UDID-X",
                     some "simulator", some (.valid 0)⟩) (by decide) (by decide),
   (c6_construct_within_capacity 30000
      [("session_0_expired0",
        PFile.record ⟨some "session_0_expired0", some "UDID-X",
                      some "simulator", some (.valid 0)⟩),
       ("session_25000_badtype",
        PFile.record ⟨some "session_25000_badtype", some "UDID-Y",
                      some "weird", some (.valid 25000)⟩),
       ("session_29000_good0",
        encodeSession ⟨"session_29000_good0", "UDID-G", .simulator, 29000⟩)]
      10 6 (by decide) (by decide)).2.2.2 (by decide) "session_25000_badtype"
      ⟨some "session_25000_badtype", some "UDID-Y",
       some "weird", some (.valid 25000)⟩ (by decide) (by decide)⟩

/-- C7 counterexample: a directory holding one unparsable (corrupt)
file, loaded at construction.  The startup cleanup pass deletes the
file outright — the resulting store has an empty `corrupted/` backup
area and no trace of the file — contradicting "moved to a side
corrupted area for postmortem inspection rather than deleted". -/
theorem c7_counterexample :
    (constructManager 1000 [("deadbeef", PFile.corrupt)] 10 6).corrupted = []
    ∧ (constructManager 1000 [("deadbeef", PFile.corrupt)] 10 6).files = [] := by
  decide

/-- C7 amended: during construction, corrupt (non-JSON) files are
deleted outright by `_cleanup_old_sessions_on_startup` before
`_load_sessions` runs, so the backup-to-`corrupted/` path of
`_load_sessions` never fires at construction — the backup area stays
empty and every corrupt file is gone from the directory (file names
distinct, a directory invariant).  Structurally invalid records are
deleted as well: those with a missing or unparsable `created_at` by
the startup pass, the rest (missing required fields, unknown
`device_type`) by the load loop whenever it reaches them — guaranteed
when the directory holds at most `max_sessions` files. -/
theorem c7_corrupt_deleted_at_startup (now : Nat) (files : List (String × PFile))
    (maxS h : Nat) (hnod : (files.map Prod.fst).Nodup) :
    (constructManager now files maxS h).corrupted = []
    ∧ (∀ name, (name, PFile.corrupt) ∈ files →
        lookupKey name (constructManager now files maxS h).files = none)
    ∧ (∀ name r, (name, PFile.record r) ∈ files →
        keepAtStartupCleanup now (h * 3600) (PFile.record r) = false →
        lookupKey name (constructManager now files maxS h).files = none)
    ∧ (files.length ≤ maxS → ∀ name r, (name, PFile.record r) ∈ files →
        checkRecord now (h * 3600) r = .deleteFile →
        lookupKey name (constructManager now files maxS h).files = none) := by
  have hnc : ∀ nf ∈ cleanupOldSessionsOnStartup now (h * 3600) files,
      (nf : String × PFile).2 ≠ PFile.corrupt := by
    intro nf hnf he
    have h2 := (List.mem_filter.mp hnf).2
    rw [he] at h2
    simp [keepAtStartupCleanup] at h2
  refine ⟨?_, ?_, ?_, ?_⟩
  · unfold constructManager
    rw [enforce_corrupted]
    simp only [loadSessions]
    rw [loadLoop_corrupted_nil now (h * 3600) maxS _ [] 0 hnc]
    rfl
  · intro name hmem
    exact construct_files_none_of_not_keep now files maxS h hnod name PFile.corrupt hmem rfl
  · intro name r hmem hkeep
    exact construct_files_none_of_not_keep now files maxS h hnod name _ hmem hkeep
  · intro hlen name r hmem hdel
    exact construct_deletes_invalid_record now files maxS h hnod hlen name r hmem hdel

/-- C7 witness: a three-file directory — a corrupt file, a record with
an unparsable `created_at`, and a record with an unknown
`device_type` — with limit 10.  The empty backup area and each file's
deletion are obtained from the theorem with the membership,
validation, and length hypotheses discharged by evaluation. -/
theorem c7_corrupt_deleted_at_startup_witness :
    (constructManager 30000
      [("deadbeef", PFile.corrupt),
       ("badtime7",
        PFile.record ⟨some "badtime7", some "UDID-T", some "simulator", some .invalid⟩),
       ("badtype7",
        PFile.record ⟨some "badtype7", some "UDID-W", some "weird", some (.valid 25000)⟩)]
      10 6).corrupted = []
    ∧ lookupKey "deadbeef"
        (constructManager 30000
          [("deadbeef", PFile.corrupt),
           ("badtime7",
            PFile.record ⟨some "badtime7", some "UDID-T", some "simulator", some .invalid⟩),
           ("badtype7",
            PFile.record ⟨some "badtype7", some "UDID-W", some "weird",
                          some (.valid 25000)⟩)]
          10 6).files = none
    ∧ lookupKey "badtime7"
        (constructManager 30000
          [("deadbeef", PFile.corrupt),
           ("badtime7",
            PFile.record ⟨some "badtime7", some "UDID-T", some "simulator", some .invalid⟩),
           ("badtype7",
            PFile.record ⟨some "badtype7", some "UDID-W", some "weird",
                          some (.valid 25000)⟩)]
          10 6).files = none
    ∧ lookupKey "badtype7"
        (constructManager 30000
          [("deadbeef", PFile.corrupt),
           ("badtime7",
            PFile.record ⟨some "badtime7", some "UDID-T", some "simulator", some .invalid⟩),
           ("badtype7",
            PFile.record ⟨some "badtype7", some "UDID-W", some "weird",
                          some (.valid 25000)⟩)]
          10 6).files = none :=
  ⟨(c7_corrupt_deleted_at_startup 30000
      [("deadbeef", PFile.corrupt),
       ("badtime7",
        PFile.record ⟨some "badtime7", some "UDID-T", some "simulator", some .invalid⟩),
       ("badtype7",
        PFile.record ⟨some "badtype7", some "UDID-W", some "weird", some (.valid 25000)⟩)]
      10 6 (by decide)).1,
   (c7_corrupt_deleted_at_startup 30000
      [("deadbeef", PFile.corrupt),
       ("badtime7",
        PFile.record ⟨some "badtime7", some "UDID-T", some "simulator", some .invalid⟩),
       ("badtype7",
        PFile.record ⟨some "badtype7", some "UDID-W", some "weird", some (.valid 25000)⟩)]
      10 6 (by decide)).2.1 "deadbeef" (by decide),
   (c7_corrupt_deleted_at_startup 30000
      [("deadbeef", PFile.corrupt),
       ("badtime7",
        PFile.record ⟨some "badtime7", some "UDID-T", some "simulator", some .invalid⟩),
       ("badtype7",
        PFile.record ⟨some "badtype7", some "UDID-W", some "weird", some (.valid 25000)⟩)]
      10 6 (by decide)).2.2.1 "badtime7"
      ⟨some "badtime7", some "UDID-T", some "simulator", some .invalid⟩
      (by decide) (by decide),
   (c7_corrupt_deleted_at_startup 30000
      [("deadbeef", PFile.corrupt),
       ("badtime7",
        PFile.record ⟨some "badtime7", some "UDID-T", some "simulator", some .invalid⟩),
       ("badtype7",
        PFile.record ⟨some "badtype7", some "UDID-W", some "weird", some (.valid 25000)⟩)]
      10 6 (by decide)).2.2.2 (by decide) "badtype7"
      ⟨some "badtype7", some "UDID-W", some "weird", some (.valid 25000)⟩
      (by decide) (by decide)⟩
